import Mathlib

/-!
Shallow embedding of the Voice_Agent orchestration core:
the session store (`app/services/chat_session.py`), the LLM error
classification and fallback lookup (`app/services/llm.py`), the TTS input
truncation policy (`app/services/tts.py`), and the session chat pipeline
(`app/routers/chat.py`, endpoint `chat_with_session` together with
`_generate_fallback_response`).  External remote calls are abstracted by an
environment record describing each gateway outcome; the pipeline also
returns the list of remote calls it issued, so call-count and
timeout-tier facts are provable.
-/

namespace VoiceAgent

/-! ## Session store (`app/services/chat_session.py`) -/

/-- One conversation turn, `{"role": ..., "content": ...}`. -/
structure Turn where
  role : String
  content : String
deriving DecidableEq

/-- The in-memory session map `ChatSessionManager._sessions`
(`Dict[str, List[Dict[str, str]]]`), embedded as an association list. -/
abbrev Sessions := List (String × List Turn)

/-- `ChatSessionManager.get_session_history`: `self._sessions.get(session_id, [])`. -/
def get_session_history : Sessions → String → List Turn
  | [], _ => []
  | (k, h) :: rest, id => if k = id then h else get_session_history rest id

/-- `ChatSessionManager.add_message`: lazily creates the session, then appends one turn. -/
def add_message : Sessions → String → String → String → Sessions
  | [], id, role, content => [(id, [⟨role, content⟩])]
  | (k, h) :: rest, id, role, content =>
      if k = id then (k, h ++ [⟨role, content⟩]) :: rest
      else (k, h) :: add_message rest id role content

/-- `ChatSessionManager.get_message_count`: `len(self._sessions.get(session_id, []))`. -/
def get_message_count (ss : Sessions) (id : String) : Nat :=
  (get_session_history ss id).length

/-- `ChatSessionManager.clear_session`: deletes the entry if present,
returning whether it existed, together with the updated store. -/
def clear_session : Sessions → String → Bool × Sessions
  | [], _ => (false, [])
  | (k, h) :: rest, id =>
      if k = id then (true, rest)
      else
        let r := clear_session rest id
        (r.1, (k, h) :: r.2)

/-- The set of session ids present in the store (the dict keys). -/
def sessionKeys (ss : Sessions) : List String := ss.map Prod.fst

/-! ## Configuration constants (`app/core/config.py`) -/

/-- `Settings.MURF_MAX_CHARS`. -/
def MURF_MAX_CHARS : Nat := 3000

/-- `Settings.TTS_TIMEOUT`, the normal TTS timeout tier. -/
def TTS_TIMEOUT : Nat := 10

/-- The short timeout tier hard-coded in `TTSService.generate_fallback_speech`. -/
def FALLBACK_TTS_TIMEOUT : Nat := 5

/-- `Settings.ALLOWED_AUDIO_TYPES`. -/
def ALLOWED_AUDIO_TYPES : List String :=
  ["audio/webm", "audio/wav", "audio/mp3", "audio/m4a", "audio/ogg", "audio/opus"]

/-- `STTService.validate_audio_format`: membership in the allow-list. -/
def validate_audio_format (content_type : String) : Bool :=
  ALLOWED_AUDIO_TYPES.contains content_type

/-! ## String search helpers (Python's `in` on `str`) -/

/-- Substring test on character lists: `pat` occurs contiguously in the list. -/
def containsSub (pat : List Char) : List Char → Bool
  | [] => List.isPrefixOf pat []
  | c :: rest => List.isPrefixOf pat (c :: rest) || containsSub pat rest

/-- Python's `pat in s` substring operator. -/
def strContains (s pat : String) : Bool := containsSub pat.data s.data

/-- ASCII case mapping of Python's `str.lower` (the classification patterns
are all ASCII). -/
def pyLower (c : Char) : Char :=
  if 65 ≤ c.toNat ∧ c.toNat ≤ 90 then Char.ofNat (c.toNat + 32) else c

/-- Python's `str.lower` on a whole string. -/
def strToLower (s : String) : String := String.mk (s.data.map pyLower)

/-! ## LLM service (`app/services/llm.py`) -/

/-- `LLMService.get_error_type`: classify an error message by lowercased
substring matching, in priority order. -/
def get_error_type (error_message : String) : String :=
  let error_str := strToLower error_message
  if strContains error_str "quota" || strContains error_str "429" then
    "LLM_QUOTA_ERROR"
  else if strContains error_str "api key" || strContains error_str "authentication" then
    "LLM_AUTH_ERROR"
  else if strContains error_str "network" || strContains error_str "connection"
      || strContains error_str "timeout" then
    "LLM_NETWORK_ERROR"
  else
    "LLM_GENERAL_ERROR"

/-- The canned quota fallback message. -/
def quotaFallbackMsg : String :=
  "I\x27ve reached my daily conversation limit. Please try again tomorrow, or consider upgrading for unlimited conversations!"

/-- The canned authentication fallback message. -/
def authFallbackMsg : String :=
  "I\x27m having authentication issues right now. Please try again in a few moments."

/-- The canned network fallback message. -/
def networkFallbackMsg : String :=
  "I\x27m having trouble connecting to my AI brain right now. Please try again in a moment!"

/-- The canned general fallback message. -/
def generalFallbackMsg : String :=
  "I\x27m experiencing some technical difficulties right now. Please try asking your question again!"

/-- `LLMService.get_fallback_message`: dictionary lookup with the general
message as the default for unknown keys. -/
def get_fallback_message (error_type : String) : String :=
  if error_type = "LLM_QUOTA_ERROR" then quotaFallbackMsg
  else if error_type = "LLM_AUTH_ERROR" then authFallbackMsg
  else if error_type = "LLM_NETWORK_ERROR" then networkFallbackMsg
  else if error_type = "LLM_GENERAL_ERROR" then generalFallbackMsg
  else generalFallbackMsg

/-- `LLMService.generate_conversational_response`: raises when unconfigured;
otherwise the whole remote interaction sits in a `try` block, so a raised
remote error is swallowed and becomes `None`, as is an empty extracted text.
The remote outcome is abstracted as `Except`: an error message, or the text
extracted by `_extract_response_text` (already `none` when extraction found
nothing). -/
def generate_conversational_response (configured : Bool)
    (remote : Except String (Option String)) : Except String (Option String) :=
  if configured = false then Except.error "LLM service not configured"
  else
    match remote with
    | Except.error _ => Except.ok none
    | Except.ok none => Except.ok none
    | Except.ok (some t) => if t = "" then Except.ok none else Except.ok (some t)

/-! ## Temperature bound declared on the request models (`app/models/schemas.py`) -/

/-- The `ge=0, le=2` bound declared on `LLMQueryRequest.temperature` and
`ChatRequest.temperature`. -/
def temperature_in_range (t : ℚ) : Bool := decide (0 ≤ t) && decide (t ≤ 2)

/-! ## TTS service (`app/services/tts.py`) -/

/-- The trailing truncation marker appended by `TTSService.generate_speech`. -/
def truncMarker : String := "... (truncated)"

/-- The truncation policy of `TTSService.generate_speech`:
`text[:MURF_MAX_CHARS - 20] + "... (truncated)"` when over the limit. -/
def ttsTruncate (s : String) : String :=
  if s.length > MURF_MAX_CHARS then
    String.mk (s.data.take (MURF_MAX_CHARS - 20) ++ truncMarker.data)
  else s

/-! ## The chat pipeline (`app/routers/chat.py`) -/

/-- One remote gateway call issued while handling a request, with the
timeout tier used for TTS calls. -/
inductive Call where
  | stt : Call
  | llm (temperature : ℚ) : Call
  | tts (text : String) (timeout : Nat) : Call
deriving DecidableEq

/-- Environment abstracting gateway configuration and remote outcomes for
one request: which services report configured, what
`STTService.transcribe_audio` returns, what the LLM remote interaction
yields (raised message, or extracted text), and what the two TTS entry
points return.  `generate_speech` and `generate_fallback_speech` catch all
exceptions and return `None`, so their outcomes are `Option`. -/
structure Env where
  llmConfigured : Bool
  sttConfigured : Bool
  ttsConfigured : Bool
  sttResult : Option String
  llmRemote : Except String (Option String)
  ttsPrimary : Option String
  ttsFallback : Option String

/-- The HTTP 200 JSON body built by `_generate_fallback_response` when the
fallback speech call produced audio (`fallback_data`). -/
structure FallbackOk where
  session_id : String
  error_type : String
  transcription : Option String
  llm_response : String
  audio_url : Option String
  voiceId : String
  is_fallback : Bool
  message_count : Nat
deriving DecidableEq

/-- The HTTP 503 JSON body built by `_generate_fallback_response` when the
fallback speech call produced no audio. -/
structure FallbackUnavail where
  error : String
  error_type : String
  fallback_text : String
  service_unavailable : Bool
deriving DecidableEq

/-- The `ChatResponse` body returned on the success path; `tts_error` and
`error_type` are present only when TTS produced no audio, and
`is_fallback` defaults to `false` in the `ChatResponse` model. -/
structure ChatBody where
  session_id : String
  model : String
  transcription : String
  llm_response : String
  audio_url : Option String
  voiceId : String
  filename : String
  message_count : Nat
  tts_error : Option String
  error_type : Option String
  is_fallback : Bool
deriving DecidableEq

/-- The response of the `chat_with_session` endpoint, one constructor per
distinct response shape in the source. -/
inductive ChatResult where
  | llmUnavailable (error service_type : String)
  | badFileType (content_type : String)
  | fallbackOk (body : FallbackOk)
  | fallbackUnavailable (body : FallbackUnavail)
  | internalError
  | ok (body : ChatBody)
deriving DecidableEq

/-- A full run of the endpoint: the response, the session store afterwards,
and the remote calls issued, in order. -/
structure ChatRun where
  result : ChatResult
  sessions : Sessions
  calls : List Call
deriving DecidableEq

/-- `_generate_fallback_response`: tries `generate_fallback_speech` (short
timeout tier) when TTS is configured; returns the 200 fallback body when
that produced audio, the 503 service-unavailable body otherwise.  The
session store is read for the message count but never modified. -/
def fallbackResp (env : Env) (session_id message voice_id error_type : String)
    (ss : Sessions) (calls : List Call) : ChatRun :=
  let audio_url := if env.ttsConfigured then env.ttsFallback else none
  let calls := if env.ttsConfigured then calls ++ [Call.tts message FALLBACK_TTS_TIMEOUT] else calls
  match audio_url with
  | some url =>
      ⟨ChatResult.fallbackOk
        { session_id := session_id, error_type := error_type, transcription := none,
          llm_response := message, audio_url := some url, voiceId := voice_id,
          is_fallback := true, message_count := get_message_count ss session_id },
        ss, calls⟩
  | none =>
      ⟨ChatResult.fallbackUnavailable
        { error := message, error_type := error_type, fallback_text := message,
          service_unavailable := true },
        ss, calls⟩

/-- The fixed STT fallback message used by `chat_with_session`. -/
def sttFallbackMsg : String :=
  "I\x27m having trouble understanding your audio right now. Please try speaking again or check your microphone."

/-- The `chat_with_session` endpoint (`POST /chat/{session_id}`), stage by
stage: LLM-configured guard, audio-type validation, STT-configured guard,
transcription, user-turn append, conversational LLM call (whose raised
errors were already swallowed into `None`, so the router hard-codes
`LLM_GENERAL_ERROR`), assistant-turn append, then TTS with degradation to a
text-only body on failure. -/
def chat_with_session (env : Env) (session_id filename content_type model : String)
    (temperature : ℚ) (voiceId : String) (ss : Sessions) : ChatRun :=
  if env.llmConfigured = false then
    ⟨ChatResult.llmUnavailable "LLM service unavailable - API key not configured" "LLM", ss, []⟩
  else if validate_audio_format content_type = false then
    ⟨ChatResult.badFileType content_type, ss, []⟩
  else if env.sttConfigured = false then
    fallbackResp env session_id sttFallbackMsg voiceId "STT_ERROR" ss []
  else
    match env.sttResult with
    | none => fallbackResp env session_id sttFallbackMsg voiceId "STT_ERROR" ss [Call.stt]
    | some user_message =>
      let ss1 := add_message ss session_id "user" user_message
      match generate_conversational_response env.llmConfigured env.llmRemote with
      | Except.error _ => ⟨ChatResult.internalError, ss1, [Call.stt, Call.llm temperature]⟩
      | Except.ok none =>
          fallbackResp env session_id (get_fallback_message "LLM_GENERAL_ERROR") voiceId
            "LLM_GENERAL_ERROR" ss1 [Call.stt, Call.llm temperature]
      | Except.ok (some llm_response) =>
          let ss2 := add_message ss1 session_id "assistant" llm_response
          if env.ttsConfigured then
            match env.ttsPrimary with
            | some url =>
                ⟨ChatResult.ok
                  { session_id := session_id, model := model, transcription := user_message,
                    llm_response := llm_response, audio_url := some url, voiceId := voiceId,
                    filename := filename, message_count := get_message_count ss2 session_id,
                    tts_error := none, error_type := none, is_fallback := false },
                  ss2, [Call.stt, Call.llm temperature, Call.tts (ttsTruncate llm_response) TTS_TIMEOUT]⟩
            | none =>
                ⟨ChatResult.ok
                  { session_id := session_id, model := model, transcription := user_message,
                    llm_response := llm_response, audio_url := none, voiceId := voiceId,
                    filename := filename, message_count := get_message_count ss2 session_id,
                    tts_error := some "Audio generation failed", error_type := some "TTS_ERROR",
                    is_fallback := false },
                  ss2, [Call.stt, Call.llm temperature, Call.tts (ttsTruncate llm_response) TTS_TIMEOUT]⟩
          else
            ⟨ChatResult.ok
              { session_id := session_id, model := model, transcription := user_message,
                llm_response := llm_response, audio_url := none, voiceId := voiceId,
                filename := filename, message_count := get_message_count ss2 session_id,
                tts_error := some "TTS service not configured", error_type := some "TTS_ERROR",
                is_fallback := false },
              ss2, [Call.stt, Call.llm temperature]⟩

/-- The `is_fallback` JSON field carried by a response body, when the body
has one at all: the 503 bodies carry no such key. -/
def resultIsFallbackField : ChatResult → Option Bool
  | ChatResult.fallbackOk b => some b.is_fallback
  | ChatResult.ok b => some b.is_fallback
  | _ => none

/-! ## Helper lemmas about the session store -/

lemma get_session_history_of_not_mem (ss : Sessions) (id : String)
    (h : id ∉ sessionKeys ss) : get_session_history ss id = [] := by
  induction ss with
  | nil => rfl
  | cons hd tl ih =>
      obtain ⟨k, hist⟩ := hd
      simp only [sessionKeys, List.map_cons, List.mem_cons, not_or] at h
      simp only [get_session_history]
      rw [if_neg (fun hk => h.1 hk.symm)]
      exact ih (by simpa [sessionKeys] using h.2)

lemma clear_session_fst_iff (ss : Sessions) (id : String) :
    (clear_session ss id).1 = true ↔ id ∈ sessionKeys ss := by
  induction ss with
  | nil => simp [clear_session, sessionKeys]
  | cons hd tl ih =>
      obtain ⟨k, hist⟩ := hd
      by_cases hk : k = id
      · subst hk
        simp [clear_session, sessionKeys]
      · simp only [clear_session, sessionKeys, List.map_cons, List.mem_cons]
        rw [if_neg hk]
        simp only [sessionKeys] at ih
        rw [ih]
        constructor
        · exact Or.inr
        · rintro (h | h)
          · exact absurd h.symm hk
          · exact h

/-! ## Claim theorems -/

/-- Claim C1 (code bug evidence): when the LLM remote call raises an error
whose message contains "429", `LLMService.get_error_type` would classify it
as quota, but the chat pipeline never consults it: the exception is
swallowed into `None` inside `generate_conversational_response` and the
router hard-codes `LLM_GENERAL_ERROR`, so the outcome carries the general
fallback message (distinct from the quota message), voiced under the short
timeout tier. -/
theorem chat_429_misrouted_to_general_fallback :
    get_error_type "429 You exceeded your current quota" = "LLM_QUOTA_ERROR" ∧
    chat_with_session
        { llmConfigured := true, sttConfigured := true, ttsConfigured := true,
          sttResult := some "hello",
          llmRemote := Except.error "429 You exceeded your current quota",
          ttsPrimary := none, ttsFallback := some "https://audio/fb.mp3" }
        "s1" "a.webm" "audio/webm" "gemini-1.5-flash" 1 "en-US-natalie" [] =
      ⟨ChatResult.fallbackOk
          { session_id := "s1", error_type := "LLM_GENERAL_ERROR", transcription := none,
            llm_response := generalFallbackMsg, audio_url := some "https://audio/fb.mp3",
            voiceId := "en-US-natalie", is_fallback := true, message_count := 1 },
        [("s1", [⟨"user", "hello"⟩])],
        [Call.stt, Call.llm 1, Call.tts generalFallbackMsg FALLBACK_TTS_TIMEOUT]⟩ ∧
    generalFallbackMsg ≠ quotaFallbackMsg := by
  refine ⟨by decide, by decide, by decide⟩

/-- Claim C2 (code bug evidence): a request with temperature 5 — outside
the `[0, 2]` bound declared on the request models — is not rejected: the
pipeline completes successfully and the LLM remote call is issued with
temperature 5. -/
theorem chat_accepts_out_of_range_temperature :
    temperature_in_range 5 = false ∧
    chat_with_session
        { llmConfigured := true, sttConfigured := true, ttsConfigured := true,
          sttResult := some "hello", llmRemote := Except.ok (some "hi there"),
          ttsPrimary := some "https://audio/1.mp3", ttsFallback := some "https://audio/fb.mp3" }
        "s1" "a.webm" "audio/webm" "gemini-1.5-flash" 5 "en-US-natalie" [] =
      ⟨ChatResult.ok
          { session_id := "s1", model := "gemini-1.5-flash", transcription := "hello",
            llm_response := "hi there", audio_url := some "https://audio/1.mp3",
            voiceId := "en-US-natalie", filename := "a.webm", message_count := 2,
            tts_error := none, error_type := none, is_fallback := false },
        [("s1", [⟨"user", "hello"⟩, ⟨"assistant", "hi there"⟩])],
        [Call.stt, Call.llm 5, Call.tts "hi there" TTS_TIMEOUT]⟩ := by
  refine ⟨by decide, by decide⟩

/-- Claim C3: when transcription and the LLM succeed but the TTS stage
fails, the outcome keeps the full response text, has no audio URL, carries
the `tts_error` note with `error_type = "TTS_ERROR"`, is not a fallback
response, and both turns are in the session. -/
theorem chat_tts_failure_degrades_to_text
    (u r session_id filename content_type model voiceId : String) (t : ℚ)
    (ss : Sessions) (ttsFb : Option String)
    (hct : validate_audio_format content_type = true) (hne : r ≠ "") :
    chat_with_session
        { llmConfigured := true, sttConfigured := true, ttsConfigured := true,
          sttResult := some u, llmRemote := Except.ok (some r),
          ttsPrimary := none, ttsFallback := ttsFb }
        session_id filename content_type model t voiceId ss =
      ⟨ChatResult.ok
          { session_id := session_id, model := model, transcription := u,
            llm_response := r, audio_url := none, voiceId := voiceId,
            filename := filename,
            message_count :=
              get_message_count
                (add_message (add_message ss session_id "user" u) session_id "assistant" r)
                session_id,
            tts_error := some "Audio generation failed", error_type := some "TTS_ERROR",
            is_fallback := false },
        add_message (add_message ss session_id "user" u) session_id "assistant" r,
        [Call.stt, Call.llm t, Call.tts (ttsTruncate r) TTS_TIMEOUT]⟩ := by
  simp [chat_with_session, generate_conversational_response, hct, hne]

/-- Claim C3 witness at concrete inputs. -/
theorem chat_tts_failure_degrades_to_text_witness :
    chat_with_session
        { llmConfigured := true, sttConfigured := true, ttsConfigured := true,
          sttResult := some "hello", llmRemote := Except.ok (some "hi there"),
          ttsPrimary := none, ttsFallback := some "https://audio/fb.mp3" }
        "s1" "a.webm" "audio/webm" "gemini-1.5-flash" 1 "en-US-natalie" [] =
      ⟨ChatResult.ok
          { session_id := "s1", model := "gemini-1.5-flash", transcription := "hello",
            llm_response := "hi there", audio_url := none, voiceId := "en-US-natalie",
            filename := "a.webm", message_count := 2,
            tts_error := some "Audio generation failed", error_type := some "TTS_ERROR",
            is_fallback := false },
        [("s1", [⟨"user", "hello"⟩, ⟨"assistant", "hi there"⟩])],
        [Call.stt, Call.llm 1, Call.tts "hi there" TTS_TIMEOUT]⟩ :=
  chat_tts_failure_degrades_to_text "hello" "hi there" "s1" "a.webm" "audio/webm"
    "gemini-1.5-flash" "en-US-natalie" 1 [] (some "https://audio/fb.mp3")
    (by decide) (by decide)

/-- Claim C4: when the LLM service is unconfigured the pipeline returns the
service-unavailable result immediately: the session store is untouched and
no remote call of any kind — in particular no transcription call — is
issued. -/
theorem chat_llm_unconfigured_short_circuits
    (sttC ttsC : Bool) (sttR : Option String) (llmR : Except String (Option String))
    (ttsP ttsFb : Option String)
    (session_id filename content_type model voiceId : String) (t : ℚ) (ss : Sessions) :
    chat_with_session
        { llmConfigured := false, sttConfigured := sttC, ttsConfigured := ttsC,
          sttResult := sttR, llmRemote := llmR, ttsPrimary := ttsP, ttsFallback := ttsFb }
        session_id filename content_type model t voiceId ss =
      ⟨ChatResult.llmUnavailable "LLM service unavailable - API key not configured" "LLM",
        ss, []⟩ := by
  simp [chat_with_session]

/-- Claim C5 counterexample: transcription fails and the fallback voicing
also fails; the returned 503 body carries no `is_fallback` field at all, so
the outcome does not have `is_fallback = true` as the claim states. -/
theorem chat_stt_failure_unvoiced_lacks_is_fallback :
    chat_with_session
        { llmConfigured := true, sttConfigured := true, ttsConfigured := true,
          sttResult := none, llmRemote := Except.ok none,
          ttsPrimary := none, ttsFallback := none }
        "s1" "a.webm" "audio/webm" "gemini-1.5-flash" 1 "en-US-natalie" [] =
      ⟨ChatResult.fallbackUnavailable
          { error := sttFallbackMsg, error_type := "STT_ERROR",
            fallback_text := sttFallbackMsg, service_unavailable := true },
        [], [Call.stt, Call.tts sttFallbackMsg FALLBACK_TTS_TIMEOUT]⟩ ∧
    resultIsFallbackField
        (chat_with_session
          { llmConfigured := true, sttConfigured := true, ttsConfigured := true,
            sttResult := none, llmRemote := Except.ok none,
            ttsPrimary := none, ttsFallback := none }
          "s1" "a.webm" "audio/webm" "gemini-1.5-flash" 1 "en-US-natalie" []).result ≠
      some true := by
  refine ⟨by decide, by decide⟩

/-- Claim C5 as amended: when transcription fails the session store is
unchanged and the transcript is absent with error kind `STT_ERROR`; the
outcome carries `is_fallback = true` when the fallback voicing succeeds,
and otherwise is the service-unavailable body (which has no `is_fallback`
field). -/
theorem chat_stt_failure_fallback_outcome
    (ttsC : Bool) (llmR : Except String (Option String)) (ttsP ttsFb : Option String)
    (session_id filename content_type model voiceId : String) (t : ℚ) (ss : Sessions)
    (hct : validate_audio_format content_type = true) :
    (chat_with_session
        { llmConfigured := true, sttConfigured := true, ttsConfigured := ttsC,
          sttResult := none, llmRemote := llmR, ttsPrimary := ttsP, ttsFallback := ttsFb }
        session_id filename content_type model t voiceId ss).sessions = ss ∧
    (∀ url, ttsC = true → ttsFb = some url →
      (chat_with_session
          { llmConfigured := true, sttConfigured := true, ttsConfigured := ttsC,
            sttResult := none, llmRemote := llmR, ttsPrimary := ttsP, ttsFallback := ttsFb }
          session_id filename content_type model t voiceId ss).result =
        ChatResult.fallbackOk
          { session_id := session_id, error_type := "STT_ERROR", transcription := none,
            llm_response := sttFallbackMsg, audio_url := some url, voiceId := voiceId,
            is_fallback := true, message_count := get_message_count ss session_id }) ∧
    (ttsC = true → ttsFb = none →
      (chat_with_session
          { llmConfigured := true, sttConfigured := true, ttsConfigured := ttsC,
            sttResult := none, llmRemote := llmR, ttsPrimary := ttsP, ttsFallback := ttsFb }
          session_id filename content_type model t voiceId ss).result =
        ChatResult.fallbackUnavailable
          { error := sttFallbackMsg, error_type := "STT_ERROR",
            fallback_text := sttFallbackMsg, service_unavailable := true }) ∧
    (ttsC = false →
      (chat_with_session
          { llmConfigured := true, sttConfigured := true, ttsConfigured := ttsC,
            sttResult := none, llmRemote := llmR, ttsPrimary := ttsP, ttsFallback := ttsFb }
          session_id filename content_type model t voiceId ss).result =
        ChatResult.fallbackUnavailable
          { error := sttFallbackMsg, error_type := "STT_ERROR",
            fallback_text := sttFallbackMsg, service_unavailable := true }) := by
  refine ⟨?_, ?_, ?_, ?_⟩
  · cases ttsC <;> cases ttsFb <;> simp [chat_with_session, fallbackResp, hct]
  · rintro url hc hf; subst hc; subst hf
    simp [chat_with_session, fallbackResp, hct]
  · rintro hc hf; subst hc; subst hf
    simp [chat_with_session, fallbackResp, hct]
  · rintro hc; subst hc
    simp [chat_with_session, fallbackResp, hct]

/-- Claim C5 amended-theorem witness at concrete inputs. -/
theorem chat_stt_failure_fallback_outcome_witness :
    (chat_with_session
        { llmConfigured := true, sttConfigured := true, ttsConfigured := true,
          sttResult := none, llmRemote := Except.ok none,
          ttsPrimary := none, ttsFallback := some "https://audio/fb.mp3" }
        "s1" "a.webm" "audio/webm" "gemini-1.5-flash" 1 "en-US-natalie" []).sessions = [] ∧
    (chat_with_session
        { llmConfigured := true, sttConfigured := true, ttsConfigured := true,
          sttResult := none, llmRemote := Except.ok none,
          ttsPrimary := none, ttsFallback := some "https://audio/fb.mp3" }
        "s1" "a.webm" "audio/webm" "gemini-1.5-flash" 1 "en-US-natalie" []).result =
      ChatResult.fallbackOk
        { session_id := "s1", error_type := "STT_ERROR", transcription := none,
          llm_response := sttFallbackMsg, audio_url := some "https://audio/fb.mp3",
          voiceId := "en-US-natalie", is_fallback := true, message_count := 0 } :=
  ⟨(chat_stt_failure_fallback_outcome true (Except.ok none) none
      (some "https://audio/fb.mp3") "s1" "a.webm" "audio/webm" "gemini-1.5-flash"
      "en-US-natalie" 1 [] (by decide)).1,
   (chat_stt_failure_fallback_outcome true (Except.ok none) none
      (some "https://audio/fb.mp3") "s1" "a.webm" "audio/webm" "gemini-1.5-flash"
      "en-US-natalie" 1 [] (by decide)).2.1 "https://audio/fb.mp3" rfl rfl⟩

/-- Claim C6: text strictly longer than the TTS character limit is
truncated to exactly `limit - 20` characters with the trailing truncation
marker appended (no error is signalled — `ttsTruncate` is total), while
text of length at most the limit is passed through unmodified. -/
theorem tts_truncation_policy (s : String) :
    (s.length > MURF_MAX_CHARS →
      ttsTruncate s = String.mk (s.data.take (MURF_MAX_CHARS - 20) ++ truncMarker.data) ∧
      (s.data.take (MURF_MAX_CHARS - 20)).length = MURF_MAX_CHARS - 20 ∧
      (ttsTruncate s).length = MURF_MAX_CHARS - 20 + truncMarker.length) ∧
    (s.length ≤ MURF_MAX_CHARS → ttsTruncate s = s) := by
  have hdata : s.length = s.data.length := rfl
  constructor
  · intro h
    refine ⟨?_, ?_, ?_⟩
    · unfold ttsTruncate
      rw [if_pos h]
    · rw [List.length_take]
      rw [hdata] at h
      unfold MURF_MAX_CHARS at h ⊢
      omega
    · unfold ttsTruncate
      rw [if_pos h]
      show (s.data.take (MURF_MAX_CHARS - 20) ++ truncMarker.data).length = _
      rw [List.length_append, List.length_take]
      rw [hdata] at h
      unfold MURF_MAX_CHARS at h ⊢
      have : truncMarker.length = truncMarker.data.length := rfl
      omega
  · intro h
    unfold ttsTruncate
    rw [if_neg (by omega)]

/-- Claim C6 witness: a 3001-character text is truncated to its first 2980
characters plus the marker, and a short text passes through unchanged. -/
theorem tts_truncation_policy_witness :
    ttsTruncate (String.mk (List.replicate 3001 'a')) =
      String.mk ((String.mk (List.replicate 3001 'a')).data.take (MURF_MAX_CHARS - 20)
        ++ truncMarker.data) ∧
    ttsTruncate "short text" = "short text" :=
  ⟨((tts_truncation_policy (String.mk (List.replicate 3001 'a'))).1
      (by
        have h : (String.mk (List.replicate 3001 'a')).length = 3001 :=
          List.length_replicate 3001 'a'
        rw [h]
        decide)).1,
   (tts_truncation_policy "short text").2 (by decide)⟩

/-- Claim C7: the error classification inspects the lowercased message by
substring matching in priority order — quota/429 first, then api key or
authentication, then network, connection or timeout, and the general kind
otherwise. -/
theorem error_classification_priority (s : String) :
    ((strContains (strToLower s) "quota" || strContains (strToLower s) "429") = true →
      get_error_type s = "LLM_QUOTA_ERROR") ∧
    ((strContains (strToLower s) "quota" || strContains (strToLower s) "429") = false →
     (strContains (strToLower s) "api key" || strContains (strToLower s) "authentication") = true →
      get_error_type s = "LLM_AUTH_ERROR") ∧
    ((strContains (strToLower s) "quota" || strContains (strToLower s) "429") = false →
     (strContains (strToLower s) "api key" || strContains (strToLower s) "authentication") = false →
     (strContains (strToLower s) "network" || strContains (strToLower s) "connection"
        || strContains (strToLower s) "timeout") = true →
      get_error_type s = "LLM_NETWORK_ERROR") ∧
    ((strContains (strToLower s) "quota" || strContains (strToLower s) "429") = false →
     (strContains (strToLower s) "api key" || strContains (strToLower s) "authentication") = false →
     (strContains (strToLower s) "network" || strContains (strToLower s) "connection"
        || strContains (strToLower s) "timeout") = false →
      get_error_type s = "LLM_GENERAL_ERROR") := by
  refine ⟨?_, ?_, ?_, ?_⟩
  · intro h1
    simp [get_error_type, h1]
  · intro h1 h2
    simp [get_error_type, h1, h2]
  · intro h1 h2 h3
    simp [get_error_type, h1, h2, h3]
  · intro h1 h2 h3
    simp [get_error_type, h1, h2, h3]

/-- Claim C7 witness: a connection-error message falls through the quota
and auth tiers into the network kind. -/
theorem error_classification_priority_witness :
    get_error_type "Connection reset by peer" = "LLM_NETWORK_ERROR" :=
  (error_classification_priority "Connection reset by peer").2.2.1
    (by decide) (by decide) (by decide)

/-- Claim C8: reading an unknown session id yields the empty history and
count 0 without error, and deleting a session reports `true` exactly when
the session id was present in the store. -/
theorem session_unknown_read_and_delete_semantics (ss : Sessions) (id : String) :
    (id ∉ sessionKeys ss →
      get_session_history ss id = [] ∧ get_message_count ss id = 0) ∧
    ((clear_session ss id).1 = true ↔ id ∈ sessionKeys ss) := by
  constructor
  · intro h
    have he := get_session_history_of_not_mem ss id h
    exact ⟨he, by simp [get_message_count, he]⟩
  · exact clear_session_fst_iff ss id

/-- Claim C8 witness: a store holding only session "a"; reading unknown
"b" is empty, and deleting "a" reports true. -/
theorem session_unknown_read_and_delete_semantics_witness :
    (get_session_history [("a", [⟨"user", "hi"⟩])] "b" = [] ∧
      get_message_count [("a", [⟨"user", "hi"⟩])] "b" = 0) ∧
    (clear_session [("a", [⟨"user", "hi"⟩])] "a").1 = true :=
  ⟨(session_unknown_read_and_delete_semantics [("a", [⟨"user", "hi"⟩])] "b").1 (by decide),
   (session_unknown_read_and_delete_semantics [("a", [⟨"user", "hi"⟩])] "a").2.2 (by decide)⟩

/-- Claim C9: the fallback lookup is a pure function assigning exactly one
fixed message to each of the four kinds; the four messages are pairwise
distinct and equal kinds always yield equal text. -/
theorem fallback_messages_pure_lookup :
    get_fallback_message "LLM_QUOTA_ERROR" = quotaFallbackMsg ∧
    get_fallback_message "LLM_AUTH_ERROR" = authFallbackMsg ∧
    get_fallback_message "LLM_NETWORK_ERROR" = networkFallbackMsg ∧
    get_fallback_message "LLM_GENERAL_ERROR" = generalFallbackMsg ∧
    (quotaFallbackMsg ≠ authFallbackMsg ∧ quotaFallbackMsg ≠ networkFallbackMsg ∧
     quotaFallbackMsg ≠ generalFallbackMsg ∧ authFallbackMsg ≠ networkFallbackMsg ∧
     authFallbackMsg ≠ generalFallbackMsg ∧ networkFallbackMsg ≠ generalFallbackMsg) ∧
    (∀ k₁ k₂ : String, k₁ = k₂ → get_fallback_message k₁ = get_fallback_message k₂) := by
  refine ⟨by decide, by decide, by decide, by decide, by decide, ?_⟩
  intro k₁ k₂ h
  rw [h]

/-- Claim C9 witness: two calls with the same kind give identical text. -/
theorem fallback_messages_pure_lookup_witness :
    get_fallback_message "LLM_AUTH_ERROR" = get_fallback_message "LLM_AUTH_ERROR" :=
  fallback_messages_pure_lookup.2.2.2.2.2 "LLM_AUTH_ERROR" "LLM_AUTH_ERROR" rfl

/-- Claim C10: the fallback lookup is total — any string that is not one of
the four recognized error-kind keys maps to the general
technical-difficulty message. -/
theorem fallback_message_total_default (s : String)
    (h₁ : s ≠ "LLM_QUOTA_ERROR") (h₂ : s ≠ "LLM_AUTH_ERROR")
    (h₃ : s ≠ "LLM_NETWORK_ERROR") (h₄ : s ≠ "LLM_GENERAL_ERROR") :
    get_fallback_message s = generalFallbackMsg := by
  unfold get_fallback_message
  rw [if_neg h₁, if_neg h₂, if_neg h₃, if_neg h₄]

/-- Claim C10 witness at a concrete unrecognized key. -/
theorem fallback_message_total_default_witness :
    get_fallback_message "SOME_UNKNOWN_KIND" = generalFallbackMsg :=
  fallback_message_total_default "SOME_UNKNOWN_KIND"
    (by decide) (by decide) (by decide) (by decide)

end VoiceAgent
